import Mathlib

/-!
Verification of the ETL product-catalogue pipeline (`src/pipeline.py`,
`src/models.py`, `src/config.py`) against its natural-language
specification.

The Python code is shallowly embedded: raw JSON records become a structure
of optional fields (a `none` field models an absent dictionary key),
Python sets become `Finset`, Pydantic validation becomes an
`Except`-valued function collecting every violated constraint, and the
batched transform loop becomes an explicit fold over batch indices.
-/

deriving instance DecidableEq for Except

namespace ETL

/-! ## Raw records (`RawRecord` in the spec)

Fields mirror exactly the dictionary keys the pipeline reads; `none`
models an absent key.  Ratings are embedded as `Rat` (the pipeline only
compares them with the bounds 0 and 5). -/

/-- One entry of a `capacityValues` list (`capacity.get('name')`). -/
structure CapacityValue where
  name : Option String
deriving DecidableEq

/-- The `color` sub-object of a device option (`color.get('name')`). -/
structure ColorInfo where
  name : Option String
deriving DecidableEq

/-- One entry of a raw record's `deviceOptions` list. -/
structure DeviceOption where
  capacityValues : List CapacityValue
  color : Option ColorInfo
deriving DecidableEq

/-- One entry of a specification group's `specifications` list. -/
structure Specification where
  name : Option String
  value : Option String
deriving DecidableEq

/-- One entry of a raw record's `specificationGroups` list. -/
structure SpecGroup where
  specifications : List Specification
deriving DecidableEq

/-- A raw product record: the dictionary keys read by the pipeline,
each `none` when the key is absent. -/
structure RawProduct where
  id : Option String := none
  brand : Option String := none
  name : Option String := none
  code : Option String := none
  skuCode : Option String := none
  deviceState : Option String := none
  productType : Option String := none
  inStock : Option Bool := none
  averageRating : Option Rat := none
  totalReviews : Option Int := none
  image : Option String := none
  url : Option String := none
  specificationGroups : Option (List SpecGroup) := none
  deviceOptions : Option (List DeviceOption) := none
deriving DecidableEq

/-! ## Configuration (`src/config.py`) -/

/-- `Settings.excluded_categories` (`config.py` lines 36-39).  The Python
value is a `set`; only membership is ever used, so a list is a faithful
embedding. -/
def excluded_categories : List String :=
  ["insurance", "accessories", "simo", "sim only",
   "protection", "case", "charger", "cable"]

/-- Python's substring operator `pat in s` on strings. -/
def strContains (s pat : String) : Bool :=
  decide (pat.data <:+: s.data)

/-- Python's `str.lower()`, applied character by character (all strings the
pipeline compares are ASCII). -/
def pyLower (s : String) : String :=
  String.mk (s.data.map Char.toLower)

/-- Lexicographic (code-point) order on character lists: Python's string
`<=` used by `sorted`. -/
def charListLe : List Char → List Char → Bool
  | [], _ => true
  | _ :: _, [] => false
  | a :: as, b :: bs => if a < b then true else if b < a then false else charListLe as bs

/-- Python's string `<=`. -/
def strLe (a b : String) : Bool :=
  charListLe a.data b.data

/-- Python's `str.strip()`: leading and trailing whitespace removed. -/
def pyStrip (s : String) : String :=
  String.mk (((s.data.dropWhile Char.isWhitespace).reverse.dropWhile Char.isWhitespace).reverse)

/-! ## Inclusion filter (`ETLPipeline.should_include_product`) -/

/-- `' '.join([str(name), str(code), str(deviceState), str(productType)]).lower()`
(`pipeline.py` lines 192-197), with an absent key contributing `''`. -/
def search_text (p : RawProduct) : String :=
  pyLower (String.intercalate " "
    [p.name.getD "", p.code.getD "", p.deviceState.getD "", p.productType.getD ""])

/-- The hard-coded include-term list (`pipeline.py` lines 206-207). -/
def include_terms : List String :=
  ["iphone", "galaxy", "pixel", "moto", "handset",
   "phone", "tariff", "pay monthly", "5g", "4g"]

/-- `ETLPipeline.should_include_product` (`pipeline.py` lines 181-222).
Python's truthiness test `'k' in product and product['k']` on a list-valued
key is "key present with a non-empty list". -/
def should_include_product (p : RawProduct) : Bool :=
  let st := search_text p
  if excluded_categories.any (fun excluded => strContains st (pyLower excluded)) then
    false
  else
    let has_specs := match p.specificationGroups with
      | some (_ :: _) => true
      | _ => false
    let has_device_options := match p.deviceOptions with
      | some (_ :: _) => true
      | _ => false
    if has_specs || has_device_options then
      true
    else
      include_terms.any (fun term => strContains st term)

/-! ## Field extraction (`ETLPipeline._determine_category`,
`_extract_storage_options`, `_extract_color_options`,
`_extract_network_technology`) -/

/-- `ETLPipeline._determine_category` (`pipeline.py` lines 323-332). -/
def determine_category (p : RawProduct) : String :=
  let name := pyLower (p.name.getD "")
  let code := pyLower (p.code.getD "")
  if ["iphone", "galaxy", "pixel", "moto"].any
      (fun term => strContains name term || strContains code term) then
    "handset"
  else if strContains name "tariff" || strContains name "plan" then
    "pay_monthly"
  else
    "device"

/-- Python's `if v: use v` on an optional string: the value when it is
present and truthy (non-empty), nothing otherwise. -/
def truthyName (o : Option String) : Option String :=
  match o with
  | some n => if n = "" then none else some n
  | none => none

/-- `sorted(list(options))` applied to a Python `set` built from a list:
the deduplicated input in lexically ascending order. -/
def sortedDedup (l : List String) : List String :=
  List.insertionSort (fun a b => strLe a b = true) l.dedup

/-- `ETLPipeline._extract_storage_options` (`pipeline.py` lines 334-341):
every truthy (non-empty) `capacityValues[i].name` across all device
options, deduplicated by the `set`, then sorted. -/
def extract_storage_options (p : RawProduct) : List String :=
  sortedDedup ((p.deviceOptions.getD []).flatMap (fun dopt =>
    dopt.capacityValues.filterMap (fun c => truthyName c.name)))

/-- `ETLPipeline._extract_color_options` (`pipeline.py` lines 343-349). -/
def extract_color_options (p : RawProduct) : List String :=
  sortedDedup ((p.deviceOptions.getD []).filterMap (fun dopt =>
    truthyName (dopt.color.bind ColorInfo.name)))

/-- `ETLPipeline._extract_network_technology` (`pipeline.py` lines
351-357): the `value` of the first specification (groups in order,
specifications in order) whose name contains `"network"`; the Python
`return` fires even when that `value` key is absent. -/
def extract_network_technology (p : RawProduct) : Option String :=
  match ((p.specificationGroups.getD []).flatMap (fun g => g.specifications)).find?
      (fun s => strContains (pyLower (s.name.getD "")) "network") with
  | some s => s.value
  | none => none

/-! ## Validation (`src/models.py`, class `Product`)

Pydantic validation of one record.  Field order follows the model's
declaration order (id, brand, name, code, sku_code, device_state,
in_stock, average_rating, total_reviews): pydantic collects the errors of
every field before failing, so a failure enumerates all violated
constraints of the record at once. -/

/-- One violated constraint, mirroring the pydantic error kinds the
`Product` model can produce. -/
inductive VErr where
  /-- `id: str = Field(...)` with no value supplied. -/
  | idMissing
  /-- `brand: str = Field(...)` with no value supplied. -/
  | brandMissing
  /-- `clean_text` on `brand`: empty or whitespace-only. -/
  | brandEmpty
  /-- `name: str = Field(...)` with no value supplied. -/
  | nameMissing
  /-- `clean_text` on `name`: empty or whitespace-only. -/
  | nameEmpty
  /-- `average_rating` fails `ge=0`. -/
  | ratingTooLow
  /-- `average_rating` fails `le=5`. -/
  | ratingTooHigh
  /-- `total_reviews` fails `ge=0`. -/
  | reviewsNegative
deriving DecidableEq

/-- The validated `Product` model (`models.py` lines 12-41); `brand` and
`name` hold the values returned by `clean_text`, i.e. stripped. -/
structure Product where
  id : String
  brand : String
  name : String
  code : Option String
  sku_code : String
  device_state : Option String
  in_stock : Bool
  average_rating : Option Rat
  total_reviews : Option Int
  image_url : Option String
  product_url : Option String
deriving DecidableEq

/-- Python's `a or b` on optional strings (`None` and `''` are falsy),
as used in `raw_product.get('skuCode') or raw_product.get('code')`
(`pipeline.py` line 266). -/
def pyOr (a b : Option String) : Option String :=
  match a with
  | some s => if s = "" then b else some s
  | none => b

/-- The fallback of the `ensure_sku` validator (`models.py` lines 38-40):
a truthy `code` when available, else `"{brand}_{id}"`. -/
def sku_fallback (code : Option String) (brand id : String) : String :=
  match code with
  | some c => if c = "" then brand ++ "_" ++ id else c
  | none => brand ++ "_" ++ id

/-- The `ensure_sku` validator (`models.py` lines 34-41), specialised to a
record whose id/brand/name validated (so `values` holds the stripped
`brand` and the raw `id`): a falsy (`None` or empty) `sku_code` falls back
to `sku_fallback`. -/
def ensure_sku (v code : Option String) (brand id : String) : String :=
  match v with
  | some s => if s = "" then sku_fallback code brand id else s
  | none => sku_fallback code brand id

/-- Errors of the `id` field: required, but `clean_text` does not apply
to it, so any supplied string (even empty) passes. -/
def idErrs (id : Option String) : List VErr :=
  match id with
  | none => [VErr.idMissing]
  | some _ => []

/-- Errors of the `brand` field (required plus `clean_text`). -/
def brandErrs (brand : Option String) : List VErr :=
  match brand with
  | none => [VErr.brandMissing]
  | some b => if pyStrip b = "" then [VErr.brandEmpty] else []

/-- Errors of the `name` field (required plus `clean_text`). -/
def nameErrs (name : Option String) : List VErr :=
  match name with
  | none => [VErr.nameMissing]
  | some n => if pyStrip n = "" then [VErr.nameEmpty] else []

/-- Errors of `average_rating` (`Field(None, ge=0, le=5)`). -/
def ratingErrs (rating : Option Rat) : List VErr :=
  match rating with
  | none => []
  | some q => (if q < 0 then [VErr.ratingTooLow] else [])
      ++ (if 5 < q then [VErr.ratingTooHigh] else [])

/-- Errors of `total_reviews` (`Field(None, ge=0)`). -/
def reviewErrs (reviews : Option Int) : List VErr :=
  match reviews with
  | none => []
  | some n => if n < 0 then [VErr.reviewsNegative] else []

/-- Construction of a `Product` (`models.py` lines 12-41): either every
field validates and the model is produced (with `brand`/`name` stripped
and the SKU resolved by `ensure_sku`), or a single `ValidationError`
carries the collected per-field errors. -/
def validateProduct (id brand name code sku_code device_state : Option String)
    (in_stock : Bool) (average_rating : Option Rat) (total_reviews : Option Int)
    (image_url product_url : Option String) : Except (List VErr) Product :=
  let errs := idErrs id ++ brandErrs brand ++ nameErrs name
      ++ ratingErrs average_rating ++ reviewErrs total_reviews
  match id, brand, name with
  | some i, some b, some n =>
    if errs = [] then
    Except.ok
      { id := i
        brand := pyStrip b
        name := pyStrip n
        code := code
        sku_code := ensure_sku sku_code code (pyStrip b) i
        device_state := device_state
        in_stock := in_stock
        average_rating := average_rating
        total_reviews := total_reviews
        image_url := image_url
        product_url := product_url }
    else Except.error errs
  | _, _, _ => Except.error errs

/-- The `Product(...)` call of the transform loop (`pipeline.py` lines
261-273): a missing brand defaults to `"Unknown"`, the supplied sku code
is `skuCode or code`, a missing `inStock` defaults to `False`. -/
def validateRaw (r : RawProduct) : Except (List VErr) Product :=
  validateProduct r.id (some (r.brand.getD "Unknown")) r.name r.code
    (pyOr r.skuCode r.code) r.deviceState (r.inStock.getD false)
    r.averageRating r.totalReviews r.image r.url

/-- The error list of a record's validation (`[]` when it validates). -/
def valErrs (r : RawProduct) : List VErr :=
  match validateRaw r with
  | Except.error e => e
  | Except.ok _ => []

/-! ## Transform phase (`ETLPipeline.transform`, `pipeline.py` lines
224-321)

The processing timestamp is a parameter `ts : Nat` standing for the
`datetime.now(timezone.utc)` value of the run; it carries no data the
transform reads. -/

/-- The output model `TransformedProduct` (`models.py` lines 44-59). -/
structure TransformedProduct where
  product_id : String
  brand : String
  name : String
  category : String
  sku : String
  in_stock : Bool
  device_state : Option String
  rating : Option Rat
  review_count : Option Int
  network_technology : Option String
  storage_options : List String
  color_options : List String
  processed_timestamp : Nat
deriving DecidableEq

/-- One entry of `metrics['validation_errors']` (`pipeline.py` lines
301-307). -/
structure ErrorDetail where
  product_id : String
  product_name : String
  errors : List VErr
  timestamp : Nat
deriving DecidableEq

/-- `self.metrics` (`pipeline.py` lines 120-128); the two Python sets
become `Finset`. -/
structure Metrics where
  total_records : Nat := 0
  valid_records : Nat := 0
  invalid_records : Nat := 0
  filtered_records : Nat := 0
  validation_errors : List ErrorDetail := []
  categories_found : Finset String := ∅
  brands_processed : Finset String := ∅
deriving DecidableEq

/-- The mutable state of the transform loop: the metrics plus the
`transformed` output list being built. -/
structure TransformState where
  metrics : Metrics := {}
  transformed : List TransformedProduct := []
deriving DecidableEq

/-- The `TransformedProduct(...)` construction (`pipeline.py` lines
280-294) from a validated product and its raw record. -/
def mkTransformed (ts : Nat) (r : RawProduct) (p : Product) : TransformedProduct :=
  { product_id := p.id
    brand := p.brand
    name := p.name
    category := determine_category r
    sku := p.sku_code
    in_stock := p.in_stock
    device_state := p.device_state
    rating := p.average_rating
    review_count := p.total_reviews
    network_technology := extract_network_technology r
    storage_options := extract_storage_options r
    color_options := extract_color_options r
    processed_timestamp := ts }

/-- The loop body of `ETLPipeline.transform` for one record
(`pipeline.py` lines 249-312): filter, track the brand, validate, on
success record the category and append the transformed product, on a
`ValidationError` append an error detail. -/
def processOne (ts : Nat) (s : TransformState) (r : RawProduct) : TransformState :=
  if !should_include_product r then
    { s with metrics.filtered_records := s.metrics.filtered_records + 1 }
  else
    let brand := r.brand.getD "Unknown"
    let s := { s with metrics.brands_processed := insert brand s.metrics.brands_processed }
    match validateRaw r with
    | Except.error e =>
      { s with
        metrics.invalid_records := s.metrics.invalid_records + 1
        metrics.validation_errors := s.metrics.validation_errors ++
          [{ product_id := r.id.getD "unknown"
             product_name := r.name.getD "unknown"
             errors := e
             timestamp := ts }] }
    | Except.ok p =>
      let category := determine_category r
      let s := { s with
        metrics.categories_found := insert category s.metrics.categories_found }
      { s with
        transformed := s.transformed ++ [mkTransformed ts r p]
        metrics.valid_records := s.metrics.valid_records + 1 }

/-- `ETLPipeline.transform` (`pipeline.py` lines 238-321): the records
are processed in `ceil(n / batch_size)` batches, batch `i` being the
slice `raw_products[i*b : min((i+1)*b, n)]`. -/
def transformBatched (ts b : Nat) (s : TransformState) (l : List RawProduct) : TransformState :=
  (List.range ((l.length + b - 1) / b)).foldl
    (fun st i => ((l.drop (i * b)).take b).foldl (processOne ts) st) s

/-- The metrics as `extract` leaves them before `transform` runs
(`pipeline.py` line 164): all counters zero except `total_records`,
which is the length of the extracted list. -/
def initState (n : Nat) : TransformState :=
  { metrics := { total_records := n } }

/-- Extraction followed by transformation of a raw record list. -/
def transformPhase (ts b : Nat) (l : List RawProduct) : TransformState :=
  transformBatched ts b (initState l.length) l

/-! ## Load phase (`ETLPipeline.load`, `pipeline.py` lines 359-445) -/

/-- Which of the four output files `load` writes.  `pipeline.py` lines
379-398: with no products it writes `products.json`, `products.csv` and
`validation_report.json` and returns early; lines 400-443: otherwise it
writes those three and, when `metrics['validation_errors']` is non-empty,
also `validation_errors.json`. -/
structure LoadResult where
  json : Bool
  csv : Bool
  report : Bool
  errors : Bool
deriving DecidableEq

/-- `ETLPipeline.load` reduced to which files it writes. -/
def load (products : List TransformedProduct)
    (validation_errors : List ErrorDetail) : LoadResult :=
  if products.isEmpty then
    { json := true, csv := true, report := true, errors := false }
  else
    { json := true, csv := true, report := true,
      errors := !validation_errors.isEmpty }

/-- `ValidationReport.success_rate` (`models.py` lines 78-83). -/
def success_rate (total_records valid_records : Nat) : Rat :=
  if total_records = 0 then 0
  else ((valid_records : Rat) / (total_records : Rat)) * 100

/-! ## Full run (`ETLPipeline.run`, `pipeline.py` lines 509-566)

`run` extracts (setting `total_records`), transforms, loads, and then
logs a summary; the summary line
`self.metrics['valid_records'] / self.metrics['total_records'] * 100`
(`pipeline.py` line 545) performs an unguarded division, so a run whose
input held zero records raises `ZeroDivisionError` after the output
files were already written. -/

def pipelineRun (ts b : Nat) (raw : List RawProduct) :
    Except String (TransformState × LoadResult) :=
  let s := transformPhase ts b raw
  let out := load s.transformed s.metrics.validation_errors
  if s.metrics.total_records = 0 then
    Except.error "ZeroDivisionError"
  else
    Except.ok (s, out)

/-! ## Helper lemmas: batching

`transform` walks the input in contiguous slices; folding the loop body
over the slices in order is the same as folding it over the whole list. -/

/-- Ceiling-division step: with at least one element left, the batch
count is one more than the batch count of the list minus its first
batch. -/
theorem ceil_div_step (b k : Nat) (hb : 0 < b) (hk : 0 < k) :
    (k + b - 1) / b = ((k - b) + b - 1) / b + 1 := by
  rcases Nat.lt_or_ge k b with h | h
  · have h1 : k - b = 0 := Nat.sub_eq_zero_of_le (Nat.le_of_lt h)
    have h2 : (0 + b - 1) / b = 0 := Nat.div_eq_of_lt (by omega)
    have h3 : k + b - 1 = (k - 1) + b := by omega
    rw [h1, h2, h3, Nat.add_div_right _ hb, Nat.div_eq_of_lt (by omega)]
  · have h3 : k + b - 1 = (k - 1) + b := by omega
    have h5 : (k - b) + b - 1 = k - 1 := by omega
    rw [h3, h5, Nat.add_div_right _ hb]

/-- Folding a function over the `ceil(n/b)` contiguous slices of a list
equals folding it over the list. -/
theorem foldl_batches {α β : Type} (f : β → α → β) (b : Nat) (hb : 0 < b) :
    ∀ (n : Nat) (l : List α), l.length = n → ∀ (s : β),
      (List.range ((l.length + b - 1) / b)).foldl
          (fun st i => ((l.drop (i * b)).take b).foldl f st) s
        = l.foldl f s := by
  intro n
  induction n using Nat.strong_induction_on with
  | _ n ih =>
    intro l hl s
    cases l with
    | nil =>
      have h0 : (([] : List α).length + b - 1) / b = 0 :=
        Nat.div_eq_of_lt (by simp; omega)
      rw [h0]
      simp
    | cons x xs =>
      have hpos : 0 < (x :: xs).length := by simp
      have hT : ((x :: xs).length + b - 1) / b
          = (((x :: xs).length - b) + b - 1) / b + 1 := ceil_div_step b _ hb hpos
      have hdl : ((x :: xs).drop b).length = (x :: xs).length - b := by
        simp
      rw [hT, ← hdl, List.range_succ_eq_map, List.foldl_cons, List.foldl_map]
      have hfun : (fun (st : β) (i : Nat) =>
            (((x :: xs).drop ((i + 1) * b)).take b).foldl f st)
          = fun (st : β) (i : Nat) =>
            ((((x :: xs).drop b).drop (i * b)).take b).foldl f st := by
        funext st i
        rw [List.drop_drop, Nat.succ_mul, Nat.add_comm b (i * b)]
      simp only [Nat.zero_mul, List.drop_zero] at *
      rw [hfun]
      have hlt : ((x :: xs).drop b).length < n := by
        simp at hl ⊢; omega
      rw [ih _ hlt _ rfl]
      rw [← List.foldl_append, List.take_append_drop]

/-- `transformBatched` with a positive batch size is the plain
one-record-at-a-time fold: batching has no semantic effect. -/
theorem transformBatched_eq_foldl (ts b : Nat) (hb : 0 < b)
    (s : TransformState) (l : List RawProduct) :
    transformBatched ts b s l = l.foldl (processOne ts) s :=
  foldl_batches (processOne ts) b hb l.length l rfl s

/-! ## Helper lemmas: the per-record step -/

/-- What one record contributes to the output list: its transformed form
when it passes the filter and validates, nothing otherwise. -/
def acceptOut (ts : Nat) (r : RawProduct) : Option TransformedProduct :=
  if should_include_product r then
    match validateRaw r with
    | Except.ok p => some (mkTransformed ts r p)
    | Except.error _ => none
  else none

theorem processOne_transformed (ts : Nat) (s : TransformState) (r : RawProduct) :
    (processOne ts s r).transformed = s.transformed ++ (acceptOut ts r).toList := by
  unfold processOne acceptOut
  cases hin : should_include_product r
  · simp
  · simp only [Bool.not_true, Bool.false_eq_true, if_false, if_true, ite_true]
    cases hv : validateRaw r <;> simp

theorem processOne_total (ts : Nat) (s : TransformState) (r : RawProduct) :
    (processOne ts s r).metrics.total_records = s.metrics.total_records := by
  unfold processOne
  cases hin : should_include_product r
  · simp
  · simp only [Bool.not_true, Bool.false_eq_true, if_false, ite_true]
    cases hv : validateRaw r <;> simp

theorem processOne_counts (ts : Nat) (s : TransformState) (r : RawProduct) :
    (processOne ts s r).metrics.filtered_records
      + (processOne ts s r).metrics.valid_records
      + (processOne ts s r).metrics.invalid_records
    = s.metrics.filtered_records + s.metrics.valid_records
      + s.metrics.invalid_records + 1 := by
  unfold processOne
  cases hin : should_include_product r
  · simp; omega
  · simp only [Bool.not_true, Bool.false_eq_true, if_false, ite_true]
    cases hv : validateRaw r <;> simp <;> omega

theorem processOne_valid (ts : Nat) (s : TransformState) (r : RawProduct) :
    (processOne ts s r).metrics.valid_records
      = s.metrics.valid_records + (acceptOut ts r).toList.length := by
  unfold processOne acceptOut
  cases hin : should_include_product r
  · simp
  · simp only [Bool.not_true, Bool.false_eq_true, if_false, ite_true]
    cases hv : validateRaw r <;> simp

/-! ## Helper lemmas: folding the step over a record list -/

theorem foldl_transformed (ts : Nat) :
    ∀ (l : List RawProduct) (s : TransformState),
      (l.foldl (processOne ts) s).transformed
        = s.transformed ++ l.filterMap (acceptOut ts) := by
  intro l
  induction l with
  | nil => intro s; simp
  | cons x xs ih =>
    intro s
    rw [List.foldl_cons, ih, processOne_transformed, List.filterMap_cons]
    cases acceptOut ts x <;> simp

theorem foldl_total (ts : Nat) :
    ∀ (l : List RawProduct) (s : TransformState),
      (l.foldl (processOne ts) s).metrics.total_records
        = s.metrics.total_records := by
  intro l
  induction l with
  | nil => intro s; rfl
  | cons x xs ih =>
    intro s
    rw [List.foldl_cons, ih, processOne_total]

theorem foldl_counts (ts : Nat) :
    ∀ (l : List RawProduct) (s : TransformState),
      (l.foldl (processOne ts) s).metrics.filtered_records
        + (l.foldl (processOne ts) s).metrics.valid_records
        + (l.foldl (processOne ts) s).metrics.invalid_records
      = s.metrics.filtered_records + s.metrics.valid_records
        + s.metrics.invalid_records + l.length := by
  intro l
  induction l with
  | nil => intro s; simp
  | cons x xs ih =>
    intro s
    rw [List.foldl_cons, ih, processOne_counts]
    simp
    omega

theorem foldl_valid (ts : Nat) :
    ∀ (l : List RawProduct) (s : TransformState),
      (l.foldl (processOne ts) s).metrics.valid_records
        = s.metrics.valid_records + (l.filterMap (acceptOut ts)).length := by
  intro l
  induction l with
  | nil => intro s; simp
  | cons x xs ih =>
    intro s
    rw [List.foldl_cons, ih, processOne_valid, List.filterMap_cons]
    cases acceptOut ts x
    · simp
    · simp
      omega

/-! ## Helper lemmas: the distinct-brands and distinct-categories sets -/

theorem processOne_brands_mono (ts : Nat) (s : TransformState) (r : RawProduct) :
    s.metrics.brands_processed ⊆ (processOne ts s r).metrics.brands_processed := by
  unfold processOne
  cases hin : should_include_product r
  · simp
  · simp only [Bool.not_true, Bool.false_eq_true, if_false, ite_true]
    cases hv : validateRaw r <;> simp

theorem processOne_categories_mono (ts : Nat) (s : TransformState) (r : RawProduct) :
    s.metrics.categories_found ⊆ (processOne ts s r).metrics.categories_found := by
  unfold processOne
  cases hin : should_include_product r
  · simp
  · simp only [Bool.not_true, Bool.false_eq_true, if_false, ite_true]
    cases hv : validateRaw r <;> simp

theorem foldl_brands_mono (ts : Nat) :
    ∀ (l : List RawProduct) (s : TransformState),
      s.metrics.brands_processed
        ⊆ (l.foldl (processOne ts) s).metrics.brands_processed := by
  intro l
  induction l with
  | nil => intro s; exact Finset.Subset.refl _
  | cons x xs ih =>
    intro s
    exact (processOne_brands_mono ts s x).trans (ih _)

theorem foldl_categories_mono (ts : Nat) :
    ∀ (l : List RawProduct) (s : TransformState),
      s.metrics.categories_found
        ⊆ (l.foldl (processOne ts) s).metrics.categories_found := by
  intro l
  induction l with
  | nil => intro s; exact Finset.Subset.refl _
  | cons x xs ih =>
    intro s
    exact (processOne_categories_mono ts s x).trans (ih _)

theorem processOne_brand_mem (ts : Nat) (s : TransformState) (r : RawProduct)
    (hin : should_include_product r = true) :
    r.brand.getD "Unknown" ∈ (processOne ts s r).metrics.brands_processed := by
  unfold processOne
  simp only [hin, Bool.not_true, Bool.false_eq_true, if_false, ite_true]
  cases hv : validateRaw r <;> simp

theorem processOne_category_mem (ts : Nat) (s : TransformState) (r : RawProduct)
    (hin : should_include_product r = true) (p : Product)
    (hv : validateRaw r = Except.ok p) :
    determine_category r ∈ (processOne ts s r).metrics.categories_found := by
  unfold processOne
  simp only [hin, hv, Bool.not_true, Bool.false_eq_true, if_false, ite_true]
  simp

/-! ## Helper lemmas: `sortedDedup` (the `sorted(list(set(...)))` idiom) -/

theorem charListLe_total : ∀ a b : List Char,
    charListLe a b = true ∨ charListLe b a = true := by
  intro a
  induction a with
  | nil => intro b; left; rfl
  | cons x xs ih =>
    intro b
    cases b with
    | nil => right; rfl
    | cons y ys =>
      by_cases h1 : x < y
      · left; simp [charListLe, h1]
      · by_cases h2 : y < x
        · right; simp [charListLe, h2]
        · rcases ih ys with h | h
          · left; simp [charListLe, h1, h2, h]
          · right; simp [charListLe, h1, h2, h]

theorem charListLe_trans : ∀ a b c : List Char,
    charListLe a b = true → charListLe b c = true → charListLe a c = true := by
  intro a
  induction a with
  | nil => intro b c _ _; rfl
  | cons x xs ih =>
    intro b c hab hbc
    cases b with
    | nil => simp [charListLe] at hab
    | cons y ys =>
      cases c with
      | nil => simp [charListLe] at hbc
      | cons z zs =>
        simp only [charListLe] at hab hbc ⊢
        by_cases hxy : x < y
        · by_cases hyz : y < z
          · simp [lt_trans hxy hyz]
          · by_cases hzy : z < y
            · simp [hyz, hzy] at hbc
            · have hyz' : y = z := le_antisymm (not_lt.mp hzy) (not_lt.mp hyz)
              simp [hyz' ▸ hxy]
        · by_cases hyx : y < x
          · simp [hxy, hyx] at hab
          · have hxy' : x = y := le_antisymm (not_lt.mp hyx) (not_lt.mp hxy)
            by_cases hyz : y < z
            · simp [hxy' ▸ hyz]
            · by_cases hzy : z < y
              · simp [hyz, hzy] at hbc
              · have hyz' : y = z := le_antisymm (not_lt.mp hzy) (not_lt.mp hyz)
                subst hxy' hyz'
                simp [hxy, hab, hbc] at *
                exact ih _ _ hab hbc

/-- `strLe` is total. -/
instance : IsTotal String (fun a b => strLe a b = true) :=
  ⟨fun a b => charListLe_total a.data b.data⟩

/-- `strLe` is transitive. -/
instance : IsTrans String (fun a b => strLe a b = true) :=
  ⟨fun a b c => charListLe_trans a.data b.data c.data⟩

theorem sortedDedup_sorted (l : List String) :
    List.Sorted (fun a b => strLe a b = true) (sortedDedup l) :=
  List.sorted_insertionSort _ _

theorem sortedDedup_nodup (l : List String) : (sortedDedup l).Nodup :=
  ((List.perm_insertionSort _ _).nodup_iff).mpr (List.nodup_dedup l)

theorem sortedDedup_mem (l : List String) (x : String) :
    x ∈ sortedDedup l ↔ x ∈ l := by
  unfold sortedDedup
  rw [List.mem_insertionSort, List.mem_dedup]

/-! ## Helper lemmas: validation -/

/-- The full error list the pipeline's `Product(...)` call collects for a
raw record. -/
def rawErrs (r : RawProduct) : List VErr :=
  idErrs r.id ++ brandErrs (some (r.brand.getD "Unknown")) ++ nameErrs r.name
    ++ ratingErrs r.averageRating ++ reviewErrs r.totalReviews

theorem valErrs_eq_rawErrs (r : RawProduct) : valErrs r = rawErrs r := by
  unfold valErrs validateRaw validateProduct rawErrs
  rcases r.id with _ | i <;> rcases r.name with _ | n <;> simp
  split_ifs with h
  · obtain ⟨h1, h2, h3, h4, h5⟩ := h
    simp [h1, h2, h3, h4, h5]
  · simp

theorem validateRaw_isOk (r : RawProduct) :
    (validateRaw r).isOk = true ↔ rawErrs r = [] := by
  unfold validateRaw validateProduct rawErrs
  rcases r.id with _ | i <;> rcases r.name with _ | n <;>
    simp [Except.isOk, Except.toBool, idErrs, nameErrs]
  split_ifs with h
  · simp [Except.isOk, Except.toBool, h]
  · simp [Except.isOk, Except.toBool]
    intro h1 h2 h3
    exact fun h4 => h ⟨h1, h2, h3, h4⟩

theorem rawErrs_idMissing (r : RawProduct) :
    VErr.idMissing ∈ rawErrs r ↔ r.id = none := by
  unfold rawErrs idErrs brandErrs nameErrs ratingErrs reviewErrs
  rcases r.id with _ | i <;> rcases r.name with _ | n <;>
    rcases r.averageRating with _ | q <;> rcases r.totalReviews with _ | m <;>
    simp

theorem rawErrs_brandMissing (r : RawProduct) :
    VErr.brandMissing ∉ rawErrs r := by
  unfold rawErrs idErrs brandErrs nameErrs ratingErrs reviewErrs
  rcases r.id with _ | i <;> rcases r.name with _ | n <;>
    rcases r.averageRating with _ | q <;> rcases r.totalReviews with _ | m <;>
    simp

theorem rawErrs_brandEmpty (r : RawProduct) :
    VErr.brandEmpty ∈ rawErrs r ↔ ∃ b, r.brand = some b ∧ pyStrip b = "" := by
  have hU : ¬pyStrip "Unknown" = "" := by decide
  unfold rawErrs idErrs brandErrs nameErrs ratingErrs reviewErrs
  rcases r.brand with _ | b <;>
    rcases r.id with _ | i <;> rcases r.name with _ | n <;>
    rcases r.averageRating with _ | q <;> rcases r.totalReviews with _ | m <;>
    simp [hU]

theorem rawErrs_nameMissing (r : RawProduct) :
    VErr.nameMissing ∈ rawErrs r ↔ r.name = none := by
  unfold rawErrs idErrs brandErrs nameErrs ratingErrs reviewErrs
  rcases r.id with _ | i <;> rcases r.name with _ | n <;>
    rcases r.averageRating with _ | q <;> rcases r.totalReviews with _ | m <;>
    simp

theorem rawErrs_nameEmpty (r : RawProduct) :
    VErr.nameEmpty ∈ rawErrs r ↔ ∃ n, r.name = some n ∧ pyStrip n = "" := by
  unfold rawErrs idErrs brandErrs nameErrs ratingErrs reviewErrs
  rcases r.id with _ | i <;> rcases r.name with _ | n <;>
    rcases r.averageRating with _ | q <;> rcases r.totalReviews with _ | m <;>
    simp

theorem rawErrs_ratingTooLow (r : RawProduct) :
    VErr.ratingTooLow ∈ rawErrs r ↔ ∃ q, r.averageRating = some q ∧ q < 0 := by
  unfold rawErrs idErrs brandErrs nameErrs ratingErrs reviewErrs
  rcases r.id with _ | i <;> rcases r.name with _ | n <;>
    rcases r.averageRating with _ | q <;> rcases r.totalReviews with _ | m <;>
    simp

theorem rawErrs_ratingTooHigh (r : RawProduct) :
    VErr.ratingTooHigh ∈ rawErrs r ↔ ∃ q, r.averageRating = some q ∧ 5 < q := by
  unfold rawErrs idErrs brandErrs nameErrs ratingErrs reviewErrs
  rcases r.id with _ | i <;> rcases r.name with _ | n <;>
    rcases r.averageRating with _ | q <;> rcases r.totalReviews with _ | m <;>
    simp

theorem rawErrs_reviewsNegative (r : RawProduct) :
    VErr.reviewsNegative ∈ rawErrs r ↔ ∃ m, r.totalReviews = some m ∧ m < 0 := by
  unfold rawErrs idErrs brandErrs nameErrs ratingErrs reviewErrs
  rcases r.id with _ | i <;> rcases r.name with _ | n <;>
    rcases r.averageRating with _ | q <;> rcases r.totalReviews with _ | m <;>
    simp

/-! ## Concrete records used by witnesses and counterexamples -/

/-- A record whose searchable text contains the excluded keyword
`"insurance"` although it carries a non-empty `specificationGroups`. -/
def excludedDeviceRecord : RawProduct :=
  { name := some "Phone Insurance Cover",
    specificationGroups := some [{ specifications := [] }] }

/-- A record the filter accepts (non-empty `specificationGroups`) whose
name is whitespace, so validation fails. -/
def acceptedInvalidRecord : RawProduct :=
  { id := some "77", brand := some "BrandX", name := some " ",
    specificationGroups := some [{ specifications := [] }] }

/-- A record that is accepted and validates. -/
def goodRecord : RawProduct :=
  { id := some "1", brand := some "Apple", name := some "iPhone 15",
    code := some "IP15" }

/-- A second valid record, rejected by the filter (no structural hints,
no include term in its text). -/
def filteredRecord : RawProduct :=
  { id := some "2", brand := some "Acme", name := some "Desk Lamp" }

/-- A three-record list exercising all three per-record outcomes. -/
def mixedRecords : List RawProduct :=
  [goodRecord, filteredRecord, acceptedInvalidRecord]

/-! ## Claim theorems -/

/-- C2: for every raw record whose concatenated searchable text contains
a configured excluded-category keyword as a substring, the inclusion
filter returns false — exclusion takes precedence over structural hints
and include terms. -/
theorem exclusion_takes_precedence (r : RawProduct) (ex : String)
    (hmem : ex ∈ excluded_categories)
    (hsub : strContains (search_text r) (pyLower ex) = true) :
    should_include_product r = false := by
  unfold should_include_product
  have hany : excluded_categories.any
      (fun excluded => strContains (search_text r) (pyLower excluded)) = true :=
    List.any_eq_true.mpr ⟨ex, hmem, hsub⟩
  simp only [hany, if_true]

/-- Witness for C2: the record named with "insurance" is rejected even
though it has a non-empty specification-group collection. -/
theorem exclusion_takes_precedence_witness :
    "insurance" ∈ excluded_categories
    ∧ strContains (search_text excludedDeviceRecord) (pyLower "insurance") = true
    ∧ excludedDeviceRecord.specificationGroups = some [{ specifications := [] }]
    ∧ should_include_product excludedDeviceRecord = false :=
  ⟨by decide, by decide, rfl,
    exclusion_takes_precedence excludedDeviceRecord "insurance" (by decide) (by decide)⟩

/-- C3: for every positive batch size, the batched transform equals the
one-record-at-a-time fold (same output sequence and same metrics), and
the output sequence is the order-preserving `filterMap` of the accepted,
validated records. -/
theorem batching_no_semantic_effect (ts b : Nat) (hb : 0 < b)
    (s : TransformState) (l : List RawProduct) :
    transformBatched ts b s l = l.foldl (processOne ts) s
    ∧ (transformBatched ts b s l).transformed
        = s.transformed ++ l.filterMap (acceptOut ts) := by
  have h := transformBatched_eq_foldl ts b hb s l
  exact ⟨h, by rw [h, foldl_transformed]⟩

/-- Witness for C3 at batch size 2 over a three-record list (two real
batches). -/
theorem batching_no_semantic_effect_witness :
    transformBatched 0 2 (initState 3) mixedRecords
        = mixedRecords.foldl (processOne 0) (initState 3)
    ∧ (transformBatched 0 2 (initState 3) mixedRecords).transformed
        = (initState 3).transformed ++ mixedRecords.filterMap (acceptOut 0) :=
  batching_no_semantic_effect 0 2 (by decide) (initState 3) mixedRecords

/-- C10: after the transform phase every input record is counted in
exactly one of the filtered, valid, or invalid counters, so their sum is
the total, and the valid counter equals the length of the output list. -/
theorem counters_partition_input (ts b : Nat) (hb : 0 < b) (l : List RawProduct) :
    (transformPhase ts b l).metrics.filtered_records
      + (transformPhase ts b l).metrics.valid_records
      + (transformPhase ts b l).metrics.invalid_records
      = (transformPhase ts b l).metrics.total_records
    ∧ (transformPhase ts b l).metrics.valid_records
      = (transformPhase ts b l).transformed.length := by
  unfold transformPhase
  rw [transformBatched_eq_foldl ts b hb]
  constructor
  · rw [foldl_counts, foldl_total]
    simp [initState]
  · rw [foldl_valid, foldl_transformed]
    simp [initState]

/-- Witness for C10 on a list with one valid, one filtered and one
invalid record. -/
theorem counters_partition_input_witness :
    (transformPhase 0 1000 mixedRecords).metrics.filtered_records
      + (transformPhase 0 1000 mixedRecords).metrics.valid_records
      + (transformPhase 0 1000 mixedRecords).metrics.invalid_records
      = (transformPhase 0 1000 mixedRecords).metrics.total_records
    ∧ (transformPhase 0 1000 mixedRecords).metrics.valid_records
      = (transformPhase 0 1000 mixedRecords).transformed.length :=
  counters_partition_input 0 1000 (by decide) mixedRecords

/-- A transformed record with its processing timestamp blanked. -/
def eraseTimestamp (t : TransformedProduct) : TransformedProduct :=
  { t with processed_timestamp := 0 }

theorem acceptOut_eraseTimestamp (ts : Nat) (r : RawProduct) :
    (acceptOut ts r).map eraseTimestamp = (acceptOut 0 r).map eraseTimestamp := by
  unfold acceptOut
  cases should_include_product r
  · simp
  · simp only [if_true, ite_true]
    cases validateRaw r <;> simp [mkTransformed, eraseTimestamp]

/-- C9: two transform runs over the same raw input with different
processing timestamps produce identical output sequences in every field
except the processing timestamp. -/
theorem transform_idempotent_modulo_timestamp (ts1 ts2 b : Nat) (hb : 0 < b)
    (l : List RawProduct) :
    ((transformPhase ts1 b l).transformed).map eraseTimestamp
      = ((transformPhase ts2 b l).transformed).map eraseTimestamp := by
  unfold transformPhase
  rw [transformBatched_eq_foldl ts1 b hb, transformBatched_eq_foldl ts2 b hb,
    foldl_transformed, foldl_transformed]
  simp only [initState, List.nil_append, List.map_filterMap]
  congr 1
  funext r
  have h1 := acceptOut_eraseTimestamp ts1 r
  have h2 := acceptOut_eraseTimestamp ts2 r
  simp only [Option.map_eq_map] at h1 h2 ⊢
  rw [h1, h2]

/-- Witness for C9 at timestamps 5 and 9. -/
theorem transform_idempotent_modulo_timestamp_witness :
    ((transformPhase 5 1000 mixedRecords).transformed).map eraseTimestamp
      = ((transformPhase 9 1000 mixedRecords).transformed).map eraseTimestamp :=
  transform_idempotent_modulo_timestamp 5 9 1000 (by decide) mixedRecords

/-- C8: storage options are the deduplicated union of all non-empty
capacity-value names across all device options, sorted lexically
ascending; color options likewise for non-empty color names; a missing
`deviceOptions` structure yields empty lists, never an error. -/
theorem truthyName_eq_some (o : Option String) (x : String) :
    truthyName o = some x ↔ o = some x ∧ x ≠ "" := by
  unfold truthyName
  rcases o with _ | n
  · simp
  · dsimp only
    split_ifs with hne
    · subst hne
      constructor
      · intro h
        exact absurd h (by simp)
      · rintro ⟨h1, h2⟩
        rw [Option.some_inj] at h1
        exact absurd h1.symm h2
    · constructor
      · intro h
        rw [Option.some_inj] at h
        exact ⟨by rw [h], fun hx => hne (h.trans hx)⟩
      · rintro ⟨h1, _⟩
        exact h1

theorem option_extraction_sorted_dedup (p : RawProduct) :
    (List.Sorted (fun a b => strLe a b = true) (extract_storage_options p)
      ∧ (extract_storage_options p).Nodup
      ∧ ∀ x, (x ∈ extract_storage_options p ↔ x ≠ ""
          ∧ ∃ dopt ∈ p.deviceOptions.getD [], ∃ c ∈ dopt.capacityValues, c.name = some x))
    ∧ (List.Sorted (fun a b => strLe a b = true) (extract_color_options p)
      ∧ (extract_color_options p).Nodup
      ∧ ∀ x, (x ∈ extract_color_options p ↔ x ≠ ""
          ∧ ∃ dopt ∈ p.deviceOptions.getD [], ∃ col, dopt.color = some col ∧ col.name = some x))
    ∧ (p.deviceOptions = none →
        extract_storage_options p = [] ∧ extract_color_options p = []) := by
  refine ⟨⟨sortedDedup_sorted _, sortedDedup_nodup _, fun x => ?_⟩,
    ⟨sortedDedup_sorted _, sortedDedup_nodup _, fun x => ?_⟩, fun hnone => ?_⟩
  · unfold extract_storage_options
    rw [sortedDedup_mem, List.mem_flatMap]
    constructor
    · rintro ⟨dopt, hd, hx⟩
      rw [List.mem_filterMap] at hx
      obtain ⟨c, hc, hcx⟩ := hx
      rw [truthyName_eq_some] at hcx
      exact ⟨hcx.2, dopt, hd, c, hc, hcx.1⟩
    · rintro ⟨hne, dopt, hd, c, hc, hn⟩
      refine ⟨dopt, hd, ?_⟩
      rw [List.mem_filterMap]
      exact ⟨c, hc, (truthyName_eq_some _ _).mpr ⟨hn, hne⟩⟩
  · unfold extract_color_options
    rw [sortedDedup_mem, List.mem_filterMap]
    constructor
    · rintro ⟨dopt, hd, hx⟩
      rw [truthyName_eq_some, Option.bind_eq_some] at hx
      obtain ⟨⟨col, hcol, hn⟩, hne⟩ := hx
      exact ⟨hne, dopt, hd, col, hcol, hn⟩
    · rintro ⟨hne, dopt, hd, col, hcol, hn⟩
      refine ⟨dopt, hd, ?_⟩
      rw [truthyName_eq_some, Option.bind_eq_some]
      exact ⟨⟨col, hcol, hn⟩, hne⟩
  · unfold extract_storage_options extract_color_options
    rw [hnone]
    exact ⟨rfl, rfl⟩

/-- Witness for C8: a record with no `deviceOptions` key yields empty
option lists. -/
theorem option_extraction_sorted_dedup_witness :
    extract_storage_options filteredRecord = []
    ∧ extract_color_options filteredRecord = [] :=
  (option_extraction_sorted_dedup filteredRecord).2.2 rfl

/-- The SKU resolution chain in the words of the specification: the
explicit `skuCode` field if present and non-empty, else the `code` field
if present and non-empty, else the synthesized string `"{brand}_{id}"`. -/
def sku_chain_spec (skuCode code : Option String) (brand id : String) : String :=
  match skuCode with
  | some s =>
    if s ≠ "" then s
    else match code with
      | some c => if c ≠ "" then c else brand ++ "_" ++ id
      | none => brand ++ "_" ++ id
  | none =>
    match code with
    | some c => if c ≠ "" then c else brand ++ "_" ++ id
    | none => brand ++ "_" ++ id

theorem ensure_sku_pyOr (a c : Option String) (br idv : String) :
    ensure_sku (pyOr a c) c br idv = sku_chain_spec a c br idv := by
  unfold ensure_sku pyOr sku_chain_spec sku_fallback
  rcases a with _ | s <;> rcases c with _ | cc <;> simp <;> split_ifs <;> simp_all

theorem synthesized_ne_empty (br idv : String) : br ++ "_" ++ idv ≠ "" := by
  intro hc
  have hlen := congrArg String.length hc
  rw [String.length_append, String.length_append] at hlen
  have h1 : String.length "_" = 1 := rfl
  simp [h1] at hlen

theorem sku_fallback_ne_empty (c : Option String) (br idv : String) :
    sku_fallback c br idv ≠ "" := by
  unfold sku_fallback
  rcases c with _ | cc
  · exact synthesized_ne_empty br idv
  · dsimp only
    split_ifs with h
    · exact synthesized_ne_empty br idv
    · exact h

theorem ensure_sku_ne_empty (v c : Option String) (br idv : String) :
    ensure_sku v c br idv ≠ "" := by
  unfold ensure_sku
  rcases v with _ | s
  · exact sku_fallback_ne_empty c br idv
  · dsimp only
    split_ifs with h
    · exact sku_fallback_ne_empty c br idv
    · exact h

/-- C4: the resolved SKU of every record that passes validation follows
the chain explicit `skuCode` → `code` → `"{brand}_{id}"`, and is
consequently non-empty. -/
theorem sku_resolution_chain (r : RawProduct) (p : Product)
    (h : validateRaw r = Except.ok p) :
    p.sku_code = sku_chain_spec r.skuCode r.code p.brand p.id
    ∧ p.sku_code ≠ "" := by
  unfold validateRaw validateProduct at h
  rcases hid : r.id with _ | i <;> rw [hid] at h
  · simp at h
  rcases hname : r.name with _ | n <;> rw [hname] at h
  · simp at h
  dsimp only at h
  split_ifs at h with hc
  rw [Except.ok.injEq] at h
  subst h
  exact ⟨ensure_sku_pyOr r.skuCode r.code _ _, ensure_sku_ne_empty _ _ _ _⟩

/-- Witness record for C4: no `skuCode` and no `code`, so the SKU is
synthesized from brand and id. -/
def skuWitnessRaw : RawProduct :=
  { id := some "999", brand := some "OnePlus", name := some "Phone X" }

/-- The product `validateRaw` yields for `skuWitnessRaw`. -/
def skuWitnessProduct : Product :=
  { id := "999", brand := "OnePlus", name := "Phone X", code := none,
    sku_code := "OnePlus_999", device_state := none, in_stock := false,
    average_rating := none, total_reviews := none, image_url := none,
    product_url := none }

/-- Witness for C4: the synthesized SKU `"OnePlus_999"`. -/
theorem sku_resolution_chain_witness :
    skuWitnessProduct.sku_code
        = sku_chain_spec skuWitnessRaw.skuCode skuWitnessRaw.code
            skuWitnessProduct.brand skuWitnessProduct.id
    ∧ skuWitnessProduct.sku_code ≠ "" :=
  sku_resolution_chain skuWitnessRaw skuWitnessProduct (by decide)

/-! ## C6: validation error enumeration -/

/-- A record whose id is present but empty; brand and name are valid. -/
def emptyIdRecord : RawProduct :=
  { id := some "", brand := some "Apple", name := some "iPhone" }

/-- Counterexample to C6 as stated: the claim says an empty-after-trim id
yields a validation error, but the `clean_text` validator applies only to
brand and name, so a record whose id is the empty string validates. -/
theorem empty_id_passes_validation :
    emptyIdRecord.id = some "" ∧ (validateRaw emptyIdRecord).isOk = true :=
  ⟨rfl, by decide⟩

/-- The rational 4.5, built from its reduced fraction so that it
evaluates in the kernel. -/
def ratFourPointFive : Rat := ⟨9, 2, by decide, by decide⟩

/-- The rational 6.0. -/
def ratSix : Rat := ⟨6, 1, by decide, by decide⟩

/-- A valid record carrying rating 4.5. -/
def rating45Record : RawProduct :=
  { id := some "1", brand := some "B", name := some "N",
    averageRating := some ratFourPointFive }

/-- A record carrying rating 6.0, otherwise valid. -/
def rating60Record : RawProduct :=
  { id := some "1", brand := some "B", name := some "N",
    averageRating := some ratSix }

/-- C6 (amended): validation either produces a validated record or fails
with a single error list enumerating every violated constraint: a missing
id yields an error but a present-and-empty id passes (the empty-after-trim
rule applies only to brand and name); a missing brand is defaulted to
"Unknown" by the pipeline and never yields an error, while an
empty-after-trim brand or a missing or empty-after-trim name does; a
rating below 0 or above 5 and a negative review count yield distinct
errors, all collected in the same failure; rating 4.5 is accepted
unchanged and rating 6.0 fails with exactly the rating-range error. -/
theorem validation_enumerates_all_errors (r : RawProduct) :
    ((validateRaw r).isOk = true ↔ valErrs r = [])
    ∧ (VErr.idMissing ∈ valErrs r ↔ r.id = none)
    ∧ VErr.brandMissing ∉ valErrs r
    ∧ (VErr.brandEmpty ∈ valErrs r ↔ ∃ b, r.brand = some b ∧ pyStrip b = "")
    ∧ (VErr.nameMissing ∈ valErrs r ↔ r.name = none)
    ∧ (VErr.nameEmpty ∈ valErrs r ↔ ∃ n, r.name = some n ∧ pyStrip n = "")
    ∧ (VErr.ratingTooLow ∈ valErrs r ↔ ∃ q, r.averageRating = some q ∧ q < 0)
    ∧ (VErr.ratingTooHigh ∈ valErrs r ↔ ∃ q, r.averageRating = some q ∧ 5 < q)
    ∧ (VErr.reviewsNegative ∈ valErrs r ↔ ∃ m, r.totalReviews = some m ∧ m < 0)
    ∧ ratFourPointFive = 9 / 2 ∧ ratSix = 6
    ∧ (validateRaw rating45Record).toOption.map Product.average_rating
        = some (some ratFourPointFive)
    ∧ valErrs rating60Record = [VErr.ratingTooHigh] := by
  rw [valErrs_eq_rawErrs]
  exact ⟨validateRaw_isOk r, rawErrs_idMissing r, rawErrs_brandMissing r,
    rawErrs_brandEmpty r, rawErrs_nameMissing r, rawErrs_nameEmpty r,
    rawErrs_ratingTooLow r, rawErrs_ratingTooHigh r, rawErrs_reviewsNegative r,
    by rw [ratFourPointFive, Rat.mk'_eq_divInt, Rat.divInt_eq_div]; norm_num,
    by rw [ratSix, Rat.mk'_eq_divInt, Rat.divInt_eq_div]; norm_num,
    by decide, by decide⟩

/-! ## C5: distinct-brands and distinct-categories tracking -/

/-- Counterexample to C5 as stated: `acceptedInvalidRecord` passes the
inclusion filter, but because its validation fails, its determined
category is never added to the distinct-categories set (the category is
recorded only after `Product` validation succeeds,
`pipeline.py` line 277). -/
theorem category_not_tracked_for_invalid_record :
    should_include_product acceptedInvalidRecord = true
    ∧ (transformPhase 0 1000 [acceptedInvalidRecord]).metrics.invalid_records = 1
    ∧ determine_category acceptedInvalidRecord
        ∉ (transformPhase 0 1000 [acceptedInvalidRecord]).metrics.categories_found := by
  refine ⟨by decide, by decide, by decide⟩

/-- C5 (amended): for every accepted record the transform adds its brand
to the distinct-brands set; its determined category is added only when
the record also passes validation. -/
theorem accepted_records_tracked (ts b : Nat) (hb : 0 < b)
    (l : List RawProduct) (r : RawProduct) (hmem : r ∈ l)
    (hin : should_include_product r = true) :
    r.brand.getD "Unknown" ∈ (transformPhase ts b l).metrics.brands_processed
    ∧ ((validateRaw r).isOk = true →
        determine_category r ∈ (transformPhase ts b l).metrics.categories_found) := by
  unfold transformPhase
  rw [transformBatched_eq_foldl ts b hb]
  obtain ⟨l1, l2, rfl⟩ := List.append_of_mem hmem
  rw [List.foldl_append, List.foldl_cons]
  constructor
  · exact foldl_brands_mono ts l2 _ (processOne_brand_mem ts _ r hin)
  · intro hok
    rcases hv : validateRaw r with e | p
    · rw [hv] at hok
      simp [Except.isOk, Except.toBool] at hok
    · exact foldl_categories_mono ts l2 _ (processOne_category_mem ts _ r hin p hv)

/-- Witness for C5 (amended) on a singleton list holding a valid
accepted record. -/
theorem accepted_records_tracked_witness :
    goodRecord.brand.getD "Unknown"
        ∈ (transformPhase 0 1 [goodRecord]).metrics.brands_processed
    ∧ determine_category goodRecord
        ∈ (transformPhase 0 1 [goodRecord]).metrics.categories_found :=
  ⟨(accepted_records_tracked 0 1 (by decide) [goodRecord] goodRecord
      (by decide) (by decide)).1,
   (accepted_records_tracked 0 1 (by decide) [goodRecord] goodRecord
      (by decide) (by decide)).2 (by decide)⟩

/-! ## C1: the conditional errors file -/

/-- C1: on a run whose only record is accepted but fails validation, the
transform leaves a non-empty validation-error list and yet `load` takes
its empty-products early return (`pipeline.py` lines 379-398), which
writes `products.json`, `products.csv` and `validation_report.json` but
not `validation_errors.json` — the errors file is omitted merely because
zero records were accepted, contradicting the specification. -/
theorem errors_file_omitted_when_no_products :
    (transformPhase 0 1000 [acceptedInvalidRecord]).metrics.validation_errors ≠ []
    ∧ (transformPhase 0 1000 [acceptedInvalidRecord]).transformed = []
    ∧ load (transformPhase 0 1000 [acceptedInvalidRecord]).transformed
          (transformPhase 0 1000 [acceptedInvalidRecord]).metrics.validation_errors
        = { json := true, csv := true, report := true, errors := false } := by
  refine ⟨by decide, by decide, by decide⟩

/-! ## C7: success rate and the empty-input run -/

/-- C7: the report's success rate is `valid/total × 100` for a positive
total and 0 for a zero total, but a run over an empty input list does not
complete: the summary logging divides by `total_records` without a guard
(`pipeline.py` line 545), raising `ZeroDivisionError` after the output
files were already written. -/
theorem empty_input_run_raises :
    (∀ t v : Nat, 0 < t →
      success_rate t v = ((v : Rat) / (t : Rat)) * 100)
    ∧ success_rate 0 0 = 0
    ∧ pipelineRun 0 1000 [] = Except.error "ZeroDivisionError" := by
  refine ⟨fun t v ht => ?_, by decide, by decide⟩
  unfold success_rate
  rw [if_neg (Nat.pos_iff_ne_zero.mp ht)]

/-- Witness for C7 at total 4, valid 2. -/
theorem empty_input_run_raises_witness :
    success_rate 4 2 = ((2 : Rat) / (4 : Rat)) * 100
    ∧ success_rate 0 0 = 0
    ∧ pipelineRun 0 1000 [] = Except.error "ZeroDivisionError" :=
  ⟨(empty_input_run_raises).1 4 2 (by decide),
   (empty_input_run_raises).2.1, (empty_input_run_raises).2.2⟩

end ETL
